import Mathlib

/-!
Verification of the GPU hashing-backend contract declared in
`gpu-miner/amd/ocl_gpu.h` (device context lifecycle and work dispatch).

The header fixes the three memory-hardness constants, the `gpu_context`
record and the signatures of `err_to_str`, `InitOpenCL`, `XMRSetWork`,
`XMRRunWork` and `testCContext`.  The bodies of those five functions are
not part of the visible source, so each one is modelled from the spec's
description of its behaviour; opaque platform effects (kernel execution,
device transfers, compilation) appear as explicit parameters of the model.
-/

/-- Scratch size per lane, from `#define MONERO_MEMORY 2097152`. -/
def MONERO_MEMORY : Nat := 2097152

/-- Address mask applied to scratch indexing, from `#define MONERO_MASK 0x1FFFF0`. -/
def MONERO_MASK : Nat := 0x1FFFF0

/-- Iteration count of the core mixing loop, from `#define MONERO_ITER 0x80000`. -/
def MONERO_ITER : Nat := 0x80000

/-- Status codes of the interface operations, following the error taxonomy
of the spec (capability, compilation, allocation, queue, buffer-size,
transfer and execution failures). -/
inductive OclStatus where
  | success
  | capabilityError
  | compileError
  | allocError
  | queueError
  | invalidBufferSize
  | transferError
  | executionError
deriving DecidableEq, Repr

/-- Modelled from the spec: the fixed capacity of the device-resident input
buffer holding one work blob.  The header only declares the buffer handle;
the spec fixes that its capacity is a constant set at initialization. -/
def WORK_INPUT_CAPACITY : Nat := 88

/-- The `gpu_context` record of `ocl_gpu.h`.  Opaque platform handles
(`cl_mem`, `cl_kernel`, ...) are replaced by the observable state they
carry: the input buffer becomes its byte contents plus its fixed capacity,
the target becomes a number, and the six scratch buffers become their total
capacity in bytes.  The remaining fields mirror the struct. -/
structure gpu_context where
  DeviceIndex : Nat
  RawIntensity : Nat
  WorkSize : Nat
  FreeMemory : Nat
  ComputeUnits : Nat
  InputCapacity : Nat
  InputBuffer : List Nat
  Target : Nat
  ScratchCapacity : Nat
  Nonce : Nat
deriving DecidableEq, Repr

/-- Per-device tuning parameters supplied by the caller before
initialization (the Go layer fills `RawIntensity` and `WorkSize` into each
context before calling `InitOpenCL`). -/
structure DeviceConfig where
  rawIntensity : Nat
  workSize : Nat
deriving DecidableEq, Repr

/-- The platform-side environment one device presents to initialization:
its capability snapshot and whether each opaque platform step (kernel
compilation, buffer allocation, queue creation) succeeds on it. -/
structure DeviceEnv where
  freeMemory : Nat
  computeUnits : Nat
  compileOk : Bool
  allocOk : Bool
  queueOk : Bool
deriving DecidableEq, Repr

/-- Modelled from the spec: initialization of a single device (the body of
`InitOpenCL` for one device is not in the visible source).  Queries the
capability snapshot, validates that `rawIntensity` lanes of scratch
(`MONERO_MEMORY` bytes per lane) fit in free memory minus a safety margin,
then compiles the program, allocates the buffers sized from intensity and
creates the command queue, failing with the taxonomy's tag of whichever
sub-step failed. -/
def initSingleDevice (margin deviceIndex : Nat) (cfg : DeviceConfig) (env : DeviceEnv) :
    Except OclStatus gpu_context :=
  if env.freeMemory < cfg.rawIntensity * MONERO_MEMORY + margin then
    .error .capabilityError
  else if !env.compileOk then
    .error .compileError
  else if !env.allocOk then
    .error .allocError
  else if !env.queueOk then
    .error .queueError
  else
    .ok { DeviceIndex := deviceIndex
          RawIntensity := cfg.rawIntensity
          WorkSize := cfg.workSize
          FreeMemory := env.freeMemory
          ComputeUnits := env.computeUnits
          InputCapacity := WORK_INPUT_CAPACITY
          InputBuffer := []
          Target := 0
          ScratchCapacity := cfg.rawIntensity * MONERO_MEMORY
          Nonce := 0 }

/-- Loop of `InitOpenCL` over the device list: device `i` receives ordinal
`i` and is initialized from its own configuration and environment alone. -/
def initOpenCLGo (margin idx : Nat) : List (DeviceConfig × DeviceEnv) →
    List (Except OclStatus gpu_context)
  | [] => []
  | de :: rest => initSingleDevice margin idx de.1 de.2 :: initOpenCLGo margin (idx + 1) rest

/-- Modelled from the spec: `InitOpenCL` (body not in the visible source)
brings up every requested device in turn, never aborting the remaining
devices when one fails, and reports a per-device status. -/
def InitOpenCL (margin _platform_idx : Nat) (devs : List (DeviceConfig × DeviceEnv)) :
    List (Except OclStatus gpu_context) :=
  initOpenCLGo margin 0 devs

/-- Modelled from the spec: `XMRSetWork` (body not in the visible source).
Rejects a blob longer than the input buffer's fixed capacity, reports a
device-transfer failure without touching the context, and otherwise copies
the blob (up to its declared length) and the target into the device
buffers and resets the nonce cursor.  The exact reset value is an external
coordination policy, so it is a parameter; whether the device transfer
succeeds is an opaque platform effect, so it is a parameter too. -/
def XMRSetWork (ctx : gpu_context) (input : List Nat) (input_len : Nat) (target : Nat)
    (transferOk : Bool) (resetNonce : Nat) : OclStatus × gpu_context :=
  if ctx.InputCapacity < input_len then
    (.invalidBufferSize, ctx)
  else if !transferOk then
    (.transferError, ctx)
  else
    (.success, { ctx with
                   InputBuffer := input.take input_len
                   Target := target
                   Nonce := resetNonce })

/-- One batch of the device-side search: the first nonce in
`[start, start + len)` that the kernel pipeline reports as qualifying, in
increasing order, or `none` when no nonce of the window qualifies. -/
def searchWindow (q : Nat → Bool) (start len : Nat) : Option Nat :=
  (List.range' start len).find? q

/-- Modelled from the spec: `XMRRunWork` (body not in the visible source).
Dispatches the pipeline across `RawIntensity` lanes over the window
`[Nonce, Nonce + RawIntensity)`, advances the nonce cursor by
`RawIntensity`, and reads back either a qualifying nonce or "none found".
The compiled kernel pipeline is opaque, so it appears as the parameter
`kernel`, a qualification predicate over the loaded blob, the loaded
target and a candidate nonce. -/
def XMRRunWork (kernel : List Nat → Nat → Nat → Bool) (ctx : gpu_context) :
    Option Nat × gpu_context :=
  (searchWindow (kernel ctx.InputBuffer ctx.Target) ctx.Nonce ctx.RawIntensity,
   { ctx with Nonce := ctx.Nonce + ctx.RawIntensity })

/-- The nonce window one `XMRRunWork` call on `ctx` covers, before
advancement. -/
def nonceWindow (ctx : gpu_context) : Finset Nat :=
  Finset.Ico ctx.Nonce (ctx.Nonce + ctx.RawIntensity)

/-- State reached after `k` successive `XMRRunWork` calls with no
intervening `XMRSetWork`. -/
def runWorkIter (kernel : List Nat → Nat → Nat → Bool) (ctx : gpu_context) :
    Nat → gpu_context
  | 0 => ctx
  | k + 1 => (XMRRunWork kernel (runWorkIter kernel ctx k)).2

/-- The numeric platform error code each status reports, from the OpenCL
error-code table (`CL_SUCCESS`, `CL_BUILD_PROGRAM_FAILURE`, ...). -/
def statusCode : OclStatus → Int
  | .success => 0
  | .capabilityError => -5
  | .compileError => -11
  | .allocError => -4
  | .queueError => -36
  | .invalidBufferSize => -61
  | .transferError => -30
  | .executionError => -14

/-- The OpenCL error-code table: numeric status code and its description,
one entry per `case` of the lookup's switch. -/
def clErrorTable : List (Int × String) :=
  [(0, "CL_SUCCESS"),
   (-1, "CL_DEVICE_NOT_FOUND"),
   (-2, "CL_DEVICE_NOT_AVAILABLE"),
   (-3, "CL_COMPILER_NOT_AVAILABLE"),
   (-4, "CL_MEM_OBJECT_ALLOCATION_FAILURE"),
   (-5, "CL_OUT_OF_RESOURCES"),
   (-6, "CL_OUT_OF_HOST_MEMORY"),
   (-7, "CL_PROFILING_INFO_NOT_AVAILABLE"),
   (-8, "CL_MEM_COPY_OVERLAP"),
   (-9, "CL_IMAGE_FORMAT_MISMATCH"),
   (-10, "CL_IMAGE_FORMAT_NOT_SUPPORTED"),
   (-11, "CL_BUILD_PROGRAM_FAILURE"),
   (-12, "CL_MAP_FAILURE"),
   (-13, "CL_MISALIGNED_SUB_BUFFER_OFFSET"),
   (-14, "CL_EXEC_STATUS_ERROR_FOR_EVENTS_IN_WAIT_LIST"),
   (-15, "CL_COMPILE_PROGRAM_FAILURE"),
   (-16, "CL_LINKER_NOT_AVAILABLE"),
   (-17, "CL_LINK_PROGRAM_FAILURE"),
   (-18, "CL_DEVICE_PARTITION_FAILED"),
   (-19, "CL_KERNEL_ARG_INFO_NOT_AVAILABLE"),
   (-30, "CL_INVALID_VALUE"),
   (-31, "CL_INVALID_DEVICE_TYPE"),
   (-32, "CL_INVALID_PLATFORM"),
   (-33, "CL_INVALID_DEVICE"),
   (-34, "CL_INVALID_CONTEXT"),
   (-35, "CL_INVALID_QUEUE_PROPERTIES"),
   (-36, "CL_INVALID_COMMAND_QUEUE"),
   (-37, "CL_INVALID_HOST_PTR"),
   (-38, "CL_INVALID_MEM_OBJECT"),
   (-39, "CL_INVALID_IMAGE_FORMAT_DESCRIPTOR"),
   (-40, "CL_INVALID_IMAGE_SIZE"),
   (-41, "CL_INVALID_SAMPLER"),
   (-42, "CL_INVALID_BINARY"),
   (-43, "CL_INVALID_BUILD_OPTIONS"),
   (-44, "CL_INVALID_PROGRAM"),
   (-45, "CL_INVALID_PROGRAM_EXECUTABLE"),
   (-46, "CL_INVALID_KERNEL_NAME"),
   (-47, "CL_INVALID_KERNEL_DEFINITION"),
   (-48, "CL_INVALID_KERNEL"),
   (-49, "CL_INVALID_ARG_INDEX"),
   (-50, "CL_INVALID_ARG_VALUE"),
   (-51, "CL_INVALID_ARG_SIZE"),
   (-52, "CL_INVALID_KERNEL_ARGS"),
   (-53, "CL_INVALID_WORK_DIMENSION"),
   (-54, "CL_INVALID_WORK_GROUP_SIZE"),
   (-55, "CL_INVALID_WORK_ITEM_SIZE"),
   (-56, "CL_INVALID_GLOBAL_OFFSET"),
   (-57, "CL_INVALID_EVENT_WAIT_LIST"),
   (-58, "CL_INVALID_EVENT"),
   (-59, "CL_INVALID_OPERATION"),
   (-60, "CL_INVALID_GL_OBJECT"),
   (-61, "CL_INVALID_BUFFER_SIZE"),
   (-62, "CL_INVALID_MIP_LEVEL"),
   (-63, "CL_INVALID_GLOBAL_WORK_SIZE"),
   (-64, "CL_INVALID_PROPERTY")]

/-- First-match scan of an error table, with the catch-all description for
codes outside it (the `default` arm of the switch). -/
def clErrDesc : List (Int × String) → Int → String
  | [], _ => "UNKNOWN_ERROR"
  | (code, s) :: rest, ret => if ret = code then s else clErrDesc rest ret

/-- Modelled from the spec: `err_to_str` (body not in the visible source),
the error-description lookup keyed by the platform's numeric error code,
with a catch-all description for codes outside the table. -/
def err_to_str (ret : Int) : String :=
  clErrDesc clErrorTable ret

/-- Modelled from the spec: the fixed known-answer work blob of the
self-test (the concrete bytes are not in the visible source). -/
def testWorkBlob : List Nat := [7, 1, 0, 0, 0, 0, 0, 0, 0, 0, 0, 177, 34, 85]

/-- Modelled from the spec: the known difficulty target of the self-test. -/
def testTarget : Nat := 255

/-- Modelled from the spec: the previously-verified expected nonce of the
known-answer self-test. -/
def testExpectedNonce : Nat := 3

/-- Modelled from the spec: the qualification behaviour of a correctly
compiled kernel pipeline on the known-answer inputs — exactly the
previously-verified expected nonce qualifies. -/
def referenceKernel : List Nat → Nat → Nat → Bool :=
  fun _blob _target n => n == testExpectedNonce

/-- Modelled from the spec: `testCContext` (body not in the visible
source).  Loads the fixed known-answer work blob and target, runs one
batch of the pipeline and succeeds exactly when the batch reports the
previously-verified expected nonce. -/
def testCContext (kernel : List Nat → Nat → Nat → Bool) (ctx : gpu_context) :
    OclStatus × Option Nat :=
  let s := XMRSetWork ctx testWorkBlob testWorkBlob.length testTarget true 0
  if s.1 = OclStatus.success then
    let r := (XMRRunWork kernel s.2).1
    if r = some testExpectedNonce then (OclStatus.success, r)
    else (OclStatus.executionError, r)
  else (s.1, none)

/-! ## Shared helper lemmas -/

/-- Initialization with a fitting intensity and successful platform steps
produces exactly the context the spec describes. -/
theorem initSingleDevice_ok (margin deviceIndex : Nat) (cfg : DeviceConfig) (env : DeviceEnv)
    (hmem : cfg.rawIntensity * MONERO_MEMORY + margin ≤ env.freeMemory)
    (hc : env.compileOk = true) (ha : env.allocOk = true) (hq : env.queueOk = true) :
    initSingleDevice margin deviceIndex cfg env =
      Except.ok { DeviceIndex := deviceIndex
                  RawIntensity := cfg.rawIntensity
                  WorkSize := cfg.workSize
                  FreeMemory := env.freeMemory
                  ComputeUnits := env.computeUnits
                  InputCapacity := WORK_INPUT_CAPACITY
                  InputBuffer := []
                  Target := 0
                  ScratchCapacity := cfg.rawIntensity * MONERO_MEMORY
                  Nonce := 0 } := by
  unfold initSingleDevice
  simp [Nat.not_lt.mpr hmem, hc, ha, hq]

/-- Sample tuning configuration used by the concrete witnesses. -/
def demoCfg : DeviceConfig := { rawIntensity := 2, workSize := 8 }

/-- Sample healthy device environment used by the concrete witnesses. -/
def demoEnv : DeviceEnv :=
  { freeMemory := 5000000, computeUnits := 16, compileOk := true, allocOk := true, queueOk := true }

/-- Sample context with work loaded, used by the concrete witnesses. -/
def demoCtx : gpu_context :=
  { DeviceIndex := 0, RawIntensity := 4, WorkSize := 2, FreeMemory := 5000000, ComputeUnits := 8,
    InputCapacity := 88, InputBuffer := [1, 2, 3], Target := 9, ScratchCapacity := 8388608,
    Nonce := 100 }

/-- Sample kernel predicate used by the concrete witnesses. -/
def demoKernel : List Nat → Nat → Nat → Bool := fun _ _ n => n == 101

/-! ## Claim theorems -/

/-- C10: the header's constants satisfy `MONERO_MASK = MONERO_MEMORY - 16`
and `MONERO_ITER = MONERO_MEMORY / 4`; moreover the mask keeps every
masked index 16-byte aligned and strictly inside one per-lane scratch
region. -/
theorem monero_constant_relations :
    MONERO_MASK = MONERO_MEMORY - 16 ∧
    MONERO_ITER = MONERO_MEMORY / 4 ∧
    MONERO_MEMORY = 2097152 ∧ MONERO_MASK = 0x1FFFF0 ∧ MONERO_ITER = 0x80000 ∧
    (∀ n : Nat, (n &&& MONERO_MASK) % 16 = 0) ∧
    (∀ n : Nat, n &&& MONERO_MASK < MONERO_MEMORY) := by
  refine ⟨by decide, by decide, by decide, by decide, by decide, ?_, ?_⟩
  · intro n
    have hassoc : (n &&& MONERO_MASK) &&& 15 = n &&& (MONERO_MASK &&& 15) :=
      Nat.and_assoc n MONERO_MASK 15
    have hmask : MONERO_MASK &&& 15 = 0 := by decide
    have hmod : (n &&& MONERO_MASK) &&& 15 = (n &&& MONERO_MASK) % 16 := by
      have h := Nat.and_pow_two_sub_one_eq_mod (n &&& MONERO_MASK) 4
      norm_num at h
      exact h
    rw [← hmod, hassoc, hmask, Nat.and_zero]
  · intro n
    exact lt_of_le_of_lt Nat.and_le_right (by decide)

/-- C7: `DeviceIndex`, `RawIntensity` and `WorkSize` are never modified by
`XMRSetWork` or `XMRRunWork`. -/
theorem tuning_fields_immutable (ctx : gpu_context) (input : List Nat)
    (input_len target resetN : Nat) (tOk : Bool)
    (kernel : List Nat → Nat → Nat → Bool) :
    ((XMRSetWork ctx input input_len target tOk resetN).2.DeviceIndex = ctx.DeviceIndex ∧
      (XMRSetWork ctx input input_len target tOk resetN).2.RawIntensity = ctx.RawIntensity ∧
      (XMRSetWork ctx input input_len target tOk resetN).2.WorkSize = ctx.WorkSize) ∧
    ((XMRRunWork kernel ctx).2.DeviceIndex = ctx.DeviceIndex ∧
      (XMRRunWork kernel ctx).2.RawIntensity = ctx.RawIntensity ∧
      (XMRRunWork kernel ctx).2.WorkSize = ctx.WorkSize) := by
  constructor
  · unfold XMRSetWork
    split_ifs <;> simp
  · exact ⟨rfl, rfl, rfl⟩

/-- C3: a blob longer than the input buffer's capacity makes `XMRSetWork`
fail with the buffer-size error and leave the context untouched, and a
failed device transfer likewise leaves the previous work loaded. -/
theorem setWork_failure_preserves_state (ctx : gpu_context) (input : List Nat)
    (input_len target resetN : Nat) :
    (∀ tOk : Bool, ctx.InputCapacity < input_len →
        XMRSetWork ctx input input_len target tOk resetN = (.invalidBufferSize, ctx)) ∧
    (input_len ≤ ctx.InputCapacity →
        XMRSetWork ctx input input_len target false resetN = (.transferError, ctx)) := by
  constructor
  · intro tOk h
    unfold XMRSetWork
    simp [h]
  · intro h
    unfold XMRSetWork
    simp [Nat.not_lt.mpr h]

/-- Witness for C3 at a concrete context: an oversized blob and a failed
transfer both leave `demoCtx` unchanged, with the matching error codes. -/
theorem setWork_failure_preserves_state_witness :
    XMRSetWork demoCtx [] 100 0 true 0 = (.invalidBufferSize, demoCtx) ∧
    XMRSetWork demoCtx [5] 1 0 false 0 = (.transferError, demoCtx) :=
  ⟨(setWork_failure_preserves_state demoCtx [] 100 0 0).1 true (by decide),
   (setWork_failure_preserves_state demoCtx [5] 1 0 0).2 (by decide)⟩

/-- C5: a blob whose declared length fits the input buffer is accepted by
`XMRSetWork` and reading the device input memory back yields the supplied
blob byte-for-byte up to that length. -/
theorem setWork_roundtrip (ctx : gpu_context) (input : List Nat)
    (input_len target resetN : Nat)
    (h : input_len ≤ ctx.InputCapacity) :
    (XMRSetWork ctx input input_len target true resetN).1 = OclStatus.success ∧
    (XMRSetWork ctx input input_len target true resetN).2.InputBuffer.take input_len =
      input.take input_len ∧
    (input_len = input.length →
      (XMRSetWork ctx input input_len target true resetN).2.InputBuffer = input) := by
  unfold XMRSetWork
  simp only [Nat.not_lt.mpr h, if_false, Bool.not_true, if_neg]
  refine ⟨by simp [Nat.not_lt.mpr h], ?_, ?_⟩
  · simp [Nat.not_lt.mpr h, List.take_take]
  · intro hlen
    simp [Nat.not_lt.mpr h, hlen]

/-- Witness for C5 at a concrete context: the three-byte blob written into
`demoCtx` reads back exactly. -/
theorem setWork_roundtrip_witness :
    (XMRSetWork demoCtx [5, 6, 7] 3 9 true 0).1 = OclStatus.success ∧
    (XMRSetWork demoCtx [5, 6, 7] 3 9 true 0).2.InputBuffer.take 3 = [5, 6, 7].take 3 ∧
    (3 = [5, 6, 7].length →
      (XMRSetWork demoCtx [5, 6, 7] 3 9 true 0).2.InputBuffer = [5, 6, 7]) :=
  setWork_roundtrip demoCtx [5, 6, 7] 3 9 0 (by decide)

/-- C2: whenever the configured intensity's scratch demand plus the safety
margin fits in free memory and the platform steps succeed, initialization
succeeds and the resulting context's total scratch capacity is
`rawIntensity * MONERO_MEMORY`. -/
theorem initialize_valid_succeeds (margin deviceIndex : Nat) (cfg : DeviceConfig)
    (env : DeviceEnv)
    (hmem : cfg.rawIntensity * MONERO_MEMORY + margin ≤ env.freeMemory)
    (hc : env.compileOk = true) (ha : env.allocOk = true) (hq : env.queueOk = true) :
    ∃ ctx, initSingleDevice margin deviceIndex cfg env = Except.ok ctx ∧
      ctx.ScratchCapacity = cfg.rawIntensity * MONERO_MEMORY :=
  ⟨_, initSingleDevice_ok margin deviceIndex cfg env hmem hc ha hq, rfl⟩

/-- Witness for C2 at a concrete device: intensity 2 fits in 5000000 bytes
of free memory with margin 1000, and initialization succeeds with scratch
capacity `2 * MONERO_MEMORY`. -/
theorem initialize_valid_succeeds_witness :
    ∃ ctx, initSingleDevice 1000 0 demoCfg demoEnv = Except.ok ctx ∧
      ctx.ScratchCapacity = demoCfg.rawIntensity * MONERO_MEMORY :=
  initialize_valid_succeeds 1000 0 demoCfg demoEnv (by decide) rfl rfl rfl

/-- C9: `err_to_str` yields a nonempty human-readable description for every
numeric platform code, in particular for the code of every status an
interface operation can produce. -/
theorem err_to_str_total :
    (∀ ret : Int, err_to_str ret ≠ "") ∧
    (∀ s : OclStatus, err_to_str (statusCode s) ≠ "") := by
  have hscan : ∀ (tbl : List (Int × String)), (∀ p ∈ tbl, p.2 ≠ "") →
      ∀ ret : Int, clErrDesc tbl ret ≠ "" := by
    intro tbl
    induction tbl with
    | nil => intro _ ret; simp [clErrDesc]
    | cons p rest ih =>
      intro h ret
      obtain ⟨code, s⟩ := p
      unfold clErrDesc
      split
      · exact h (code, s) (List.mem_cons_self (code, s) rest)
      · exact ih (fun q hq => h q (List.mem_cons_of_mem _ hq)) ret
  have hall : ∀ p ∈ clErrorTable, p.2 ≠ "" := by decide
  exact ⟨fun ret => hscan clErrorTable hall ret,
         fun s => hscan clErrorTable hall (statusCode s)⟩

/-- Witness for C9 at concrete codes: the success code and the compilation
failure code both translate to nonempty descriptions. -/
theorem err_to_str_total_witness :
    err_to_str 0 ≠ "" ∧ err_to_str (statusCode .compileError) ≠ "" :=
  ⟨err_to_str_total.1 0, err_to_str_total.2 .compileError⟩

/-- Successive runs never change the intensity, so every later window has
the same size. -/
theorem runWorkIter_RawIntensity (kernel : List Nat → Nat → Nat → Bool)
    (ctx : gpu_context) (k : Nat) :
    (runWorkIter kernel ctx k).RawIntensity = ctx.RawIntensity := by
  induction k with
  | zero => rfl
  | succ k ih => simp [runWorkIter, XMRRunWork, ih]

/-- After `k` successive runs the nonce cursor sits `k` windows past its
starting value. -/
theorem runWorkIter_Nonce (kernel : List Nat → Nat → Nat → Bool)
    (ctx : gpu_context) (k : Nat) :
    (runWorkIter kernel ctx k).Nonce = ctx.Nonce + k * ctx.RawIntensity := by
  induction k with
  | zero => simp [runWorkIter]
  | succ k ih =>
    simp [runWorkIter, XMRRunWork, ih, runWorkIter_RawIntensity, Nat.succ_mul]
    ring

/-- C1: one `XMRRunWork` call searches exactly `[Nonce, Nonce + RawIntensity)`
(a found nonce lies in the window and qualifies; a miss means no nonce of
the window qualifies), advances the cursor by `RawIntensity`, and two
successive calls with no intervening `XMRSetWork` cover disjoint windows of
size `RawIntensity` in increasing order — more generally no two distinct
runs of a sequence revisit a window. -/
theorem runWork_window_contract (kernel : List Nat → Nat → Nat → Bool) (ctx : gpu_context) :
    (XMRRunWork kernel ctx).2.Nonce = ctx.Nonce + ctx.RawIntensity ∧
    (∀ m, (XMRRunWork kernel ctx).1 = some m →
        m ∈ nonceWindow ctx ∧ kernel ctx.InputBuffer ctx.Target m = true) ∧
    ((XMRRunWork kernel ctx).1 = none →
        ∀ m ∈ nonceWindow ctx, kernel ctx.InputBuffer ctx.Target m = false) ∧
    (nonceWindow ctx).card = ctx.RawIntensity ∧
    Disjoint (nonceWindow ctx) (nonceWindow (XMRRunWork kernel ctx).2) ∧
    (∀ a ∈ nonceWindow ctx, ∀ b ∈ nonceWindow (XMRRunWork kernel ctx).2, a < b) ∧
    (∀ j k, j < k →
        Disjoint (nonceWindow (runWorkIter kernel ctx j))
          (nonceWindow (runWorkIter kernel ctx k))) := by
  refine ⟨rfl, ?_, ?_, ?_, ?_, ?_, ?_⟩
  · intro m hm
    have hm' : List.find? (kernel ctx.InputBuffer ctx.Target)
        (List.range' ctx.Nonce ctx.RawIntensity) = some m := hm
    have hmem := List.mem_of_find?_eq_some hm'
    rw [List.mem_range'_1] at hmem
    exact ⟨Finset.mem_Ico.mpr hmem, List.find?_some hm'⟩
  · intro hnone m hm
    have hnone' : List.find? (kernel ctx.InputBuffer ctx.Target)
        (List.range' ctx.Nonce ctx.RawIntensity) = none := hnone
    rw [List.find?_eq_none] at hnone'
    have hm' : m ∈ List.range' ctx.Nonce ctx.RawIntensity := by
      rw [List.mem_range'_1]
      exact Finset.mem_Ico.mp hm
    simpa using hnone' m hm'
  · simp [nonceWindow, Nat.card_Ico]
  · exact Finset.Ico_disjoint_Ico_consecutive ctx.Nonce
      (ctx.Nonce + ctx.RawIntensity) (ctx.Nonce + ctx.RawIntensity + ctx.RawIntensity)
  · intro a ha b hb
    have ha' := Finset.mem_Ico.mp ha
    have hb' := Finset.mem_Ico.mp hb
    have hbn : (XMRRunWork kernel ctx).2.Nonce = ctx.Nonce + ctx.RawIntensity := rfl
    rw [hbn] at hb'
    omega
  · intro j k hjk
    rw [Finset.disjoint_left]
    intro a haj hak
    rw [nonceWindow, runWorkIter_Nonce, runWorkIter_RawIntensity, Finset.mem_Ico] at haj hak
    have hmul : (j + 1) * ctx.RawIntensity ≤ k * ctx.RawIntensity :=
      Nat.mul_le_mul_right _ (by omega)
    rw [Nat.succ_mul] at hmul
    omega

/-- Witness for C1 at a concrete context and kernel: the run on `demoCtx`
finds nonce 101 inside the window `[100, 104)` and the cursor advances to
104. -/
theorem runWork_window_contract_witness :
    (XMRRunWork demoKernel demoCtx).2.Nonce = demoCtx.Nonce + demoCtx.RawIntensity ∧
    (101 ∈ nonceWindow demoCtx ∧
      demoKernel demoCtx.InputBuffer demoCtx.Target 101 = true) :=
  ⟨(runWork_window_contract demoKernel demoCtx).1,
   (runWork_window_contract demoKernel demoCtx).2.1 101 (by decide)⟩

/-- The initialization loop produces one result per requested device. -/
theorem initOpenCLGo_length (margin idx : Nat) (devs : List (DeviceConfig × DeviceEnv)) :
    (initOpenCLGo margin idx devs).length = devs.length := by
  induction devs generalizing idx with
  | nil => rfl
  | cons de rest ih => simp [initOpenCLGo, ih]

/-- Each slot of the initialization loop's output is computed from that
device's own configuration and environment alone. -/
theorem initOpenCLGo_getElem (margin idx : Nat) (devs : List (DeviceConfig × DeviceEnv))
    (i : Nat) :
    (initOpenCLGo margin idx devs)[i]? =
      (devs[i]?).map (fun de => initSingleDevice margin (idx + i) de.1 de.2) := by
  induction devs generalizing idx i with
  | nil => simp [initOpenCLGo]
  | cons de rest ih =>
    cases i with
    | zero => simp [initOpenCLGo]
    | succ i =>
      have harith : idx + (i + 1) = (idx + 1) + i := by omega
      simp only [initOpenCLGo, List.getElem?_cons_succ, harith]
      exact ih (idx + 1) i

/-- C4: `InitOpenCL` reports one status per device, each device's outcome
is a function of its own configuration and environment only (so a sibling's
failure cannot abort it), and every device whose intensity fits and whose
platform steps succeed completes initialization whatever happens to the
other devices. -/
theorem initOpenCL_partial_failure (margin pidx : Nat)
    (devs : List (DeviceConfig × DeviceEnv)) :
    (InitOpenCL margin pidx devs).length = devs.length ∧
    (∀ i : Nat, (InitOpenCL margin pidx devs)[i]? =
        (devs[i]?).map (fun de => initSingleDevice margin i de.1 de.2)) ∧
    (∀ (i : Nat) (de : DeviceConfig × DeviceEnv), devs[i]? = some de →
        de.1.rawIntensity * MONERO_MEMORY + margin ≤ de.2.freeMemory →
        de.2.compileOk = true → de.2.allocOk = true → de.2.queueOk = true →
        ∃ ctx, (InitOpenCL margin pidx devs)[i]? = some (Except.ok ctx)) := by
  refine ⟨initOpenCLGo_length margin 0 devs, ?_, ?_⟩
  · intro i
    have h := initOpenCLGo_getElem margin 0 devs i
    simpa using h
  · intro i de hde hmem hc ha hq
    have h := initOpenCLGo_getElem margin 0 devs i
    rw [hde] at h
    simp only [Nat.zero_add, Option.map_some'] at h
    exact ⟨_, by
      rw [show InitOpenCL margin pidx devs = initOpenCLGo margin 0 devs from rfl, h,
         initSingleDevice_ok margin i de.1 de.2 hmem hc ha hq]⟩

/-- Environment of a device whose kernel compilation fails. -/
def demoEnvBad : DeviceEnv := { demoEnv with compileOk := false }

/-- A four-device pool in which only device 1 (the second of four) fails
compilation. -/
def demoDevs : List (DeviceConfig × DeviceEnv) :=
  [(demoCfg, demoEnv), (demoCfg, demoEnvBad), (demoCfg, demoEnv), (demoCfg, demoEnv)]

/-- Witness for C4 at a concrete pool: with device 1 of 4 failing
compilation, device 2 still initializes, device 1 reports the compilation
error, and all four devices receive a status. -/
theorem initOpenCL_partial_failure_witness :
    (∃ ctx, (InitOpenCL 1000 0 demoDevs)[2]? = some (Except.ok ctx)) ∧
    (InitOpenCL 1000 0 demoDevs)[1]? = some (Except.error OclStatus.compileError) ∧
    (InitOpenCL 1000 0 demoDevs).length = 4 :=
  ⟨(initOpenCL_partial_failure 1000 0 demoDevs).2.2 2 (demoCfg, demoEnv) rfl
      (by decide) rfl rfl rfl,
   by rfl,
   (initOpenCL_partial_failure 1000 0 demoDevs).1⟩

/-- A window scan with a single-nonce qualification predicate finds exactly
that nonce whenever the window covers it. -/
theorem searchWindow_beq_eq (s len a : Nat) (h1 : s ≤ a) (h2 : a < s + len) :
    searchWindow (fun n => n == a) s len = some a := by
  have hmem : a ∈ List.range' s len := List.mem_range'_1.mpr ⟨h1, h2⟩
  have hsome : ((List.range' s len).find? (fun n => n == a)).isSome = true :=
    List.find?_isSome.mpr ⟨a, hmem, by simp⟩
  obtain ⟨b, hb⟩ := Option.isSome_iff_exists.mp hsome
  have hba := List.find?_some hb
  have hb' : b = a := by simpa using hba
  subst hb'
  exact hb

/-- C6: on a context whose input buffer holds the known-answer blob and
whose window covers the expected nonce, a correctly compiled kernel (one
that qualifies exactly the previously-verified nonce on the known-answer
inputs) makes `testCContext` return success together with that nonce. -/
theorem selfTest_known_answer (kernel : List Nat → Nat → Nat → Bool) (ctx : gpu_context)
    (hcap : testWorkBlob.length ≤ ctx.InputCapacity)
    (hwin : testExpectedNonce < ctx.RawIntensity)
    (hker : kernel testWorkBlob testTarget = fun n => n == testExpectedNonce) :
    testCContext kernel ctx = (OclStatus.success, some testExpectedNonce) := by
  have hset : XMRSetWork ctx testWorkBlob testWorkBlob.length testTarget true 0 =
      (OclStatus.success,
       { ctx with InputBuffer := testWorkBlob, Target := testTarget, Nonce := 0 }) := by
    unfold XMRSetWork
    simp [Nat.not_lt.mpr hcap]
  have hrun : (XMRRunWork kernel
      { ctx with InputBuffer := testWorkBlob, Target := testTarget, Nonce := 0 }).1 =
      some testExpectedNonce := by
    show searchWindow (kernel testWorkBlob testTarget) 0 ctx.RawIntensity =
      some testExpectedNonce
    rw [hker]
    exact searchWindow_beq_eq 0 ctx.RawIntensity testExpectedNonce (Nat.zero_le _)
      (by omega)
  simp only [testCContext]
  rw [hset]
  simp [hrun]

/-- Witness for C6 at a concrete context: the reference kernel on `demoCtx`
makes the self-test report success with the expected nonce. -/
theorem selfTest_known_answer_witness :
    testCContext referenceKernel demoCtx = (OclStatus.success, some testExpectedNonce) :=
  selfTest_known_answer referenceKernel demoCtx (by decide) (by decide) rfl

/-- C8: the three memory-hardness constants are the fixed compile-time
values of the header; no interface operation changes the scratch sizing
derived from them, and every successfully initialized context is sized with
the same per-lane constant. -/
theorem memory_hardness_constants_fixed :
    (MONERO_MEMORY = 2097152 ∧ MONERO_MASK = 2097136 ∧ MONERO_ITER = 524288) ∧
    (∀ (ctx : gpu_context) (input : List Nat) (input_len target resetN : Nat) (tOk : Bool),
        (XMRSetWork ctx input input_len target tOk resetN).2.ScratchCapacity =
          ctx.ScratchCapacity) ∧
    (∀ (kernel : List Nat → Nat → Nat → Bool) (ctx : gpu_context),
        (XMRRunWork kernel ctx).2.ScratchCapacity = ctx.ScratchCapacity) ∧
    (∀ (margin deviceIndex : Nat) (cfg : DeviceConfig) (env : DeviceEnv) (ctx : gpu_context),
        initSingleDevice margin deviceIndex cfg env = Except.ok ctx →
        ctx.ScratchCapacity = ctx.RawIntensity * MONERO_MEMORY) := by
  refine ⟨⟨by decide, by decide, by decide⟩, ?_, ?_, ?_⟩
  · intro ctx input input_len target resetN tOk
    unfold XMRSetWork
    split_ifs <;> rfl
  · intro kernel ctx
    rfl
  · intro margin deviceIndex cfg env ctx h
    unfold initSingleDevice at h
    split_ifs at h
    simp_all
    cases h
    rfl

/-- Sample context produced by a successful initialization, used by the
concrete witnesses. -/
def demoInitCtx : gpu_context :=
  { DeviceIndex := 0, RawIntensity := 2, WorkSize := 8, FreeMemory := 5000000,
    ComputeUnits := 16, InputCapacity := 88, InputBuffer := [], Target := 0,
    ScratchCapacity := 4194304, Nonce := 0 }

/-- Witness for C8 at a concrete device: the context produced by a
successful initialization with intensity 2 has scratch capacity
`2 * MONERO_MEMORY`. -/
theorem memory_hardness_constants_fixed_witness :
    demoInitCtx.ScratchCapacity = demoInitCtx.RawIntensity * MONERO_MEMORY :=
  memory_hardness_constants_fixed.2.2.2 1000 0 demoCfg demoEnv demoInitCtx (by rfl)
